import Mathlib

/-!
Verification of `flake8_ascii_validator.py`: a shallow embedding of the
`AsciiChecker` flake8 plugin (token-based scan for non-ASCII characters)
together with proofs of the specified properties.

Python strings are modelled as Lean `String` and iterated by code point
(`String.data : List Char`), matching Python's per-code-point iteration.
Machine-independent `Nat` models Python's unbounded non-negative line and
column numbers.
-/

namespace AsciiValidator

set_option maxRecDepth 16384

/-- Token type tags, mirroring the `tokenize` module constants the checker
compares against (`tokenize.COMMENT`, `tokenize.STRING`,
`tokenize.ENCODING`); every other tag is some other integer constant,
modelled by `other n`. -/
inductive TokenType where
  | COMMENT : TokenType
  | STRING : TokenType
  | ENCODING : TokenType
  | other : Nat → TokenType
deriving DecidableEq, Repr

/-- A lexical token as consumed by the checker: the type tag, the literal
text (`token.string`), and the start position `token.start = (line, col)`. -/
structure Token where
  type : TokenType
  string : String
  start_line : Nat
  start_col : Nat
deriving DecidableEq, Repr

/-- The fourth element of each yielded tuple is `type(self)`, i.e. the
`AsciiChecker` class itself; an opaque checker identity. -/
inductive CheckerOrigin where
  | asciiChecker : CheckerOrigin
deriving DecidableEq, Repr

/-- One yielded violation tuple
`(line_number, column_offset, message, checker_class)`. -/
structure Violation where
  line : Nat
  col : Nat
  message : String
  origin : CheckerOrigin
deriving DecidableEq, Repr

/-- A single quote character, U+0027. -/
def squote : String := String.singleton (Char.ofNat 39)

/-- An uppercase hexadecimal digit character, as produced by Python's `X`
format code: `0`–`9` then `A`–`F`. -/
def hexDigitChar (n : Nat) : Char :=
  if n < 10 then Char.ofNat (48 + n) else Char.ofNat (55 + n)

/-- Uppercase hexadecimal digits of `n`, most significant first
(fuel-driven; `fuel > n` suffices). -/
def toHexAux : Nat → Nat → List Char
  | 0, _ => []
  | fuel + 1, n =>
    if n < 16 then [hexDigitChar n]
    else toHexAux fuel (n / 16) ++ [hexDigitChar (n % 16)]

/-- Python's `format(n, "04X")`: uppercase hexadecimal, zero-padded on the
left to a minimum width of 4. -/
def pyHex4 (n : Nat) : String :=
  let ds := toHexAux (n + 1) n
  ⟨List.replicate (4 - ds.length) (Char.ofNat 48) ++ ds⟩

/-- Error-code constant `AsciiChecker.ASC001`. -/
def ASC001 : String := "ASC001 Non-ASCII character found in source code"

/-- Error-code constant `AsciiChecker.ASC002`. -/
def ASC002 : String := "ASC002 Non-ASCII character found in string literal"

/-- Error-code constant `AsciiChecker.ASC003`. -/
def ASC003 : String := "ASC003 Non-ASCII character found in comment"

/-- The scan loop shared by the three checkers:
`for i, char in enumerate(text): if ord(char) > 127: ...; break`.
Returns the index (counted from `i`) and the character of the first
non-ASCII hit, or `none`. -/
def firstNonAsciiFrom (i : Nat) : List Char → Option (Nat × Char)
  | [] => none
  | c :: cs => if c.toNat > 127 then some (i, c) else firstNonAsciiFrom (i + 1) cs

/-- First non-ASCII character of a text with its 0-based index. -/
def firstNonAscii (s : List Char) : Option (Nat × Char) :=
  firstNonAsciiFrom 0 s

/-- Embedding of `AsciiChecker._check_comment`: scan a comment token, emitting at most
one ASC003 violation for the first character with `ord(char) > 127`. -/
def checkComment (token : Token) : List Violation :=
  match firstNonAscii token.string.data with
  | none => []
  | some (i, c) =>
    [{ line := token.start_line
       col := token.start_col + i
       message := ASC003 ++ " Non-ASCII character " ++ squote ++ String.singleton c
         ++ squote ++ " (U+" ++ pyHex4 c.toNat ++ ") found in comment"
       origin := CheckerOrigin.asciiChecker }]

/-- The six exempt string prefixes, as lists of code points. -/
def exemptMarkers : List (List Char) :=
  [['r', Char.ofNat 34], ['r', Char.ofNat 39],
   ['u', Char.ofNat 34], ['u', Char.ofNat 39],
   ['b', Char.ofNat 34], ['b', Char.ofNat 39]]

/-- Embedding of `string_text.lower().startswith(('r"', "r'", 'u"', "u'", 'b"', "b'"))`.
Python's `str.lower` acts per code point here: the prefixes are pure ASCII
and no non-ASCII code point lowercases to `r`, `u`, `b` or a quote, so the
ASCII `Char.toLower` captures the comparison exactly. -/
def hasExemptMarker (s : List Char) : Bool :=
  exemptMarkers.any (fun p => p.isPrefixOf (s.map Char.toLower))

/-- Embedding of `AsciiChecker._check_string_token`: skip tokens with an exempt prefix,
otherwise emit at most one ASC002 violation for the first non-ASCII
character. -/
def checkStringToken (token : Token) : List Violation :=
  if hasExemptMarker token.string.data then []
  else
    match firstNonAscii token.string.data with
    | none => []
    | some (i, c) =>
      [{ line := token.start_line
         col := token.start_col + i
         message := ASC002 ++ " Non-ASCII character " ++ squote ++ String.singleton c
           ++ squote ++ " (U+" ++ pyHex4 c.toNat ++ ") found in string literal"
         origin := CheckerOrigin.asciiChecker }]

/-- Embedding of `AsciiChecker._check_general_token`: skip the types in
`skip_types = {STRING, COMMENT, ENCODING}`, otherwise emit at most one
ASC001 violation for the first non-ASCII character. -/
def checkGeneralToken (token : Token) : List Violation :=
  if token.type = TokenType.STRING ∨ token.type = TokenType.COMMENT
      ∨ token.type = TokenType.ENCODING then []
  else
    match firstNonAscii token.string.data with
    | none => []
    | some (i, c) =>
      [{ line := token.start_line
         col := token.start_col + i
         message := ASC001 ++ " Non-ASCII character " ++ squote ++ String.singleton c
           ++ squote ++ " (U+" ++ pyHex4 c.toNat ++ ") found in source code"
         origin := CheckerOrigin.asciiChecker }]

/-- The loop body of `AsciiChecker._check_tokens`: route one token to
`_check_comment`, `_check_string_token` or `_check_general_token`. -/
def checkOneToken (token : Token) : List Violation :=
  if token.type = TokenType.COMMENT then checkComment token
  else if token.type = TokenType.STRING then checkStringToken token
  else checkGeneralToken token

/-- Embedding of `AsciiChecker._check_tokens`: dispatch every token in order,
concatenating the yielded violations. -/
def checkTokens : List Token → List Violation
  | [] => []
  | token :: rest => checkOneToken token ++ checkTokens rest

/-- The checker object: `tree` is opaque (any type `α`), `file_tokens` and
`filename` as stored by `__init__`. -/
structure AsciiChecker (α : Type) where
  tree : α
  file_tokens : List Token
  filename : String

/-- Python's `file_tokens or []` from `__init__`: `None` and the empty
list are falsy, so both collapse to `[]`. -/
def pyOrEmpty (x : Option (List Token)) : List Token :=
  match x with
  | none => []
  | some ts => if ts = [] then [] else ts

/-- Embedding of `AsciiChecker.__init__(self, tree, file_tokens=None, filename="<unknown>")`. -/
def initChecker {α : Type} (tree : α) (file_tokens : Option (List Token))
    (filename : String) : AsciiChecker α :=
  { tree := tree, file_tokens := pyOrEmpty file_tokens, filename := filename }

/-- Embedding of `AsciiChecker.run`: yields from `_check_tokens`. -/
def run {α : Type} (checker : AsciiChecker α) : List Violation :=
  checkTokens checker.file_tokens

/-! ### Concrete tokens used by the spec's example scenarios -/

/-- The spec's example scenario: one COMMENT token with text "# café" at
line 1, column 0.  The text has six code points; the only non-ASCII one,
`é` (U+00E9), sits at 0-based index 5. -/
def cafeToken : Token :=
  { type := TokenType.COMMENT, string := "# café", start_line := 1, start_col := 0 }

/-- The spec's column-accuracy scenario: a COMMENT token with text
"# commént" starting at line 5, column 4.  The text has nine code points;
`é` sits at 0-based index 6. -/
def commentToken : Token :=
  { type := TokenType.COMMENT, string := "# commént", start_line := 5, start_col := 4 }

/-- A general token with text "aé": one ASCII character before the
non-ASCII hit. -/
def genToken : Token :=
  { type := TokenType.other 2, string := "aé", start_line := 3, start_col := 7 }

/-- A general (neither COMMENT, STRING nor ENCODING) token whose text is
the single astral-plane character U+1F600, whose hexadecimal codepoint
needs five digits. -/
def emojiToken : Token :=
  { type := TokenType.other 1, string := String.singleton (Char.ofNat 0x1F600),
    start_line := 1, start_col := 0 }

/-! ### Helper lemmas about the character scan -/

/-- A text whose code points all lie in the ASCII range is never flagged. -/
theorem firstNonAsciiFrom_eq_none {s : List Char} (h : ∀ c ∈ s, c.toNat ≤ 127) :
    ∀ i, firstNonAsciiFrom i s = none := by
  induction s with
  | nil => intro i; rfl
  | cons a as ih =>
    intro i
    have ha : ¬ (a.toNat > 127) := Nat.not_lt.mpr (h a (by simp))
    simp only [firstNonAsciiFrom, if_neg ha]
    exact ih (fun c hc => h c (by simp [hc])) (i + 1)

/-- The scan returns the first non-ASCII code point with its index. -/
theorem firstNonAsciiFrom_append {pre : List Char} {c : Char} {rest : List Char}
    (hpre : ∀ a ∈ pre, a.toNat ≤ 127) (hc : 127 < c.toNat) :
    ∀ i, firstNonAsciiFrom i (pre ++ c :: rest) = some (i + pre.length, c) := by
  induction pre with
  | nil => intro i; simp [firstNonAsciiFrom, hc]
  | cons a as ih =>
    intro i
    have ha : ¬ (a.toNat > 127) := Nat.not_lt.mpr (hpre a (by simp))
    simp only [List.cons_append, firstNonAsciiFrom, if_neg ha, List.append_eq]
    rw [ih (fun x hx => hpre x (by simp [hx])) (i + 1)]
    simp only [List.length_cons, Option.some.injEq, Prod.mk.injEq, and_true]
    omega

/-- Conversely, a successful scan splits the text at the first non-ASCII
code point: everything before the hit is ASCII. -/
theorem firstNonAsciiFrom_some {s : List Char} {i : Nat} {c : Char} :
    ∀ {j : Nat}, firstNonAsciiFrom j s = some (i, c) →
      ∃ pre rest, s = pre ++ c :: rest ∧ i = j + pre.length ∧
        (∀ a ∈ pre, a.toNat ≤ 127) ∧ 127 < c.toNat := by
  induction s with
  | nil => intro j h; simp [firstNonAsciiFrom] at h
  | cons a as ih =>
    intro j h
    by_cases ha : a.toNat > 127
    · simp only [firstNonAsciiFrom, if_pos ha, Option.some.injEq, Prod.mk.injEq] at h
      refine ⟨[], as, ?_, ?_, ?_, ?_⟩
      · rw [h.2]; rfl
      · simp [← h.1]
      · simp
      · rw [← h.2]; exact ha
    · simp only [firstNonAsciiFrom, if_neg ha] at h
      obtain ⟨pre, rest, hs, hi, hpre, hc⟩ := ih h
      refine ⟨a :: pre, rest, by rw [hs]; rfl, by simp [hi]; omega, ?_, hc⟩
      intro x hx
      rcases List.mem_cons.mp hx with hx | hx
      · exact hx ▸ Nat.not_lt.mp ha
      · exact hpre x hx

/-- Concatenating token lists concatenates their violation lists. -/
theorem checkTokens_append (ts us : List Token) :
    checkTokens (ts ++ us) = checkTokens ts ++ checkTokens us := by
  induction ts with
  | nil => rfl
  | cons t ts ih => simp [checkTokens, ih]

/-- Unfolding `_check_comment` on a successful scan. -/
theorem checkComment_of_some {t : Token} {i : Nat} {c : Char}
    (h : firstNonAscii t.string.data = some (i, c)) :
    checkComment t =
      [{ line := t.start_line
         col := t.start_col + i
         message := ASC003 ++ " Non-ASCII character " ++ squote ++ String.singleton c
           ++ squote ++ " (U+" ++ pyHex4 c.toNat ++ ") found in comment"
         origin := CheckerOrigin.asciiChecker }] := by
  unfold checkComment
  rw [h]

/-- Unfolding `_check_string_token` on a non-exempt token with a
successful scan. -/
theorem checkStringToken_of_some {t : Token} {i : Nat} {c : Char}
    (hm : hasExemptMarker t.string.data = false)
    (h : firstNonAscii t.string.data = some (i, c)) :
    checkStringToken t =
      [{ line := t.start_line
         col := t.start_col + i
         message := ASC002 ++ " Non-ASCII character " ++ squote ++ String.singleton c
           ++ squote ++ " (U+" ++ pyHex4 c.toNat ++ ") found in string literal"
         origin := CheckerOrigin.asciiChecker }] := by
  unfold checkStringToken
  rw [hm]
  simp only [Bool.false_eq_true, if_false]
  rw [h]

/-- Unfolding `_check_general_token` on a non-skipped token with a
successful scan. -/
theorem checkGeneralToken_of_some {t : Token} {i : Nat} {c : Char}
    (h1 : t.type ≠ TokenType.STRING) (h2 : t.type ≠ TokenType.COMMENT)
    (h3 : t.type ≠ TokenType.ENCODING)
    (h : firstNonAscii t.string.data = some (i, c)) :
    checkGeneralToken t =
      [{ line := t.start_line
         col := t.start_col + i
         message := ASC001 ++ " Non-ASCII character " ++ squote ++ String.singleton c
           ++ squote ++ " (U+" ++ pyHex4 c.toNat ++ ") found in source code"
         origin := CheckerOrigin.asciiChecker }] := by
  unfold checkGeneralToken
  rw [if_neg (by simp [h1, h2, h3])]
  rw [h]

/-- A token whose text is entirely ASCII produces no violation in any
branch of the dispatch. -/
theorem checkOneToken_eq_nil_of_ascii {t : Token}
    (h : ∀ c ∈ t.string.data, c.toNat ≤ 127) : checkOneToken t = [] := by
  have hn : firstNonAscii t.string.data = none := firstNonAsciiFrom_eq_none h 0
  unfold checkOneToken checkComment checkStringToken checkGeneralToken
  rw [hn]
  by_cases h1 : t.type = TokenType.COMMENT <;>
    by_cases h2 : t.type = TokenType.STRING <;>
      simp [h1, h2]

/-- A text containing some non-ASCII code point always yields a hit. -/
theorem firstNonAsciiFrom_isSome : ∀ {s : List Char}, (∃ c ∈ s, 127 < c.toNat) →
    ∀ j, ∃ i c, firstNonAsciiFrom j s = some (i, c) := by
  intro s
  induction s with
  | nil => intro h; simp at h
  | cons a as ih =>
    intro h j
    by_cases ha : a.toNat > 127
    · exact ⟨j, a, by simp [firstNonAsciiFrom, ha]⟩
    · obtain ⟨c, hc, hc127⟩ := h
      rcases List.mem_cons.mp hc with rfl | hmem
      · exact absurd hc127 ha
      · obtain ⟨i, c2, hfa⟩ := ih ⟨c, hmem, hc127⟩ (j + 1)
        exact ⟨i, c2, by simp [firstNonAsciiFrom, ha, hfa]⟩

/-- Appending on the right preserves a data-level prefix. -/
theorem prefix_data_append {x : String} (a b : String) (h : x.data <+: a.data) :
    x.data <+: (a ++ b).data := by
  rw [String.data_append]
  exact h.trans (List.prefix_append a.data b.data)

/-- Every violation of the dispatch records the token's start line, the
start column plus the scan index, and a message of the shared template
shape. -/
theorem mem_checkOneToken {t : Token} {v : Violation} (hv : v ∈ checkOneToken t) :
    ∃ i c, firstNonAscii t.string.data = some (i, c) ∧
      v.line = t.start_line ∧ v.col = t.start_col + i ∧
      ∃ code tail : String,
        v.message = code ++ " Non-ASCII character " ++ squote ++ String.singleton c
          ++ squote ++ " (U+" ++ pyHex4 c.toNat ++ tail := by
  unfold checkOneToken at hv
  by_cases h1 : t.type = TokenType.COMMENT
  · rw [if_pos h1] at hv
    unfold checkComment at hv
    rcases heq : firstNonAscii t.string.data with _ | ⟨i, c⟩ <;> rw [heq] at hv
    · simp at hv
    · simp at hv
      subst hv
      exact ⟨i, c, rfl, rfl, rfl, ASC003, ") found in comment", rfl⟩
  · rw [if_neg h1] at hv
    by_cases h2 : t.type = TokenType.STRING
    · rw [if_pos h2] at hv
      unfold checkStringToken at hv
      by_cases hm : hasExemptMarker t.string.data = true
      · rw [if_pos hm] at hv; simp at hv
      · rw [if_neg hm] at hv
        rcases heq : firstNonAscii t.string.data with _ | ⟨i, c⟩ <;> rw [heq] at hv
        · simp at hv
        · simp at hv
          subst hv
          exact ⟨i, c, rfl, rfl, rfl, ASC002, ") found in string literal", rfl⟩
    · rw [if_neg h2] at hv
      unfold checkGeneralToken at hv
      by_cases hs : t.type = TokenType.STRING ∨ t.type = TokenType.COMMENT
          ∨ t.type = TokenType.ENCODING
      · rw [if_pos hs] at hv; simp at hv
      · rw [if_neg hs] at hv
        rcases heq : firstNonAscii t.string.data with _ | ⟨i, c⟩ <;> rw [heq] at hv
        · simp at hv
        · simp at hv
          subst hv
          exact ⟨i, c, rfl, rfl, rfl, ASC001, ") found in source code", rfl⟩

/-- The `U+<hex>` fragment is a substring of any message of the template
shape. -/
theorem uhex_infix (code : String) (c : Char) (tail : String) :
    ("U+" ++ pyHex4 c.toNat).data <:+:
      (code ++ " Non-ASCII character " ++ squote ++ String.singleton c ++ squote
        ++ " (U+" ++ pyHex4 c.toNat ++ tail).data := by
  refine ⟨(code ++ " Non-ASCII character " ++ squote ++ String.singleton c ++ squote
    ++ " (").data, tail.data, ?_⟩
  have h4 : (" (U+" : String) = " (" ++ "U+" := by decide
  rw [h4]
  simp [String.data_append, List.append_assoc]

/-- The hexadecimal expansion of `n < 16 ^ k` has at most `k` digits. -/
theorem toHexAux_length_le : ∀ (fuel : Nat) (k n : Nat), n < fuel → n < 16 ^ k →
    1 ≤ k → (toHexAux fuel n).length ≤ k := by
  intro fuel
  induction fuel with
  | zero => intro k n h; omega
  | succ fuel ih =>
    intro k n hn hk h1
    by_cases h16 : n < 16
    · simp [toHexAux, h16]
      exact h1
    · rcases k with _ | k1
      · omega
      · rcases k1 with _ | k2
        · exfalso
          rw [pow_one] at hk
          omega
        · have hdiv : n / 16 < 16 ^ (k2 + 1) := by
            have hmul : n < 16 ^ (k2 + 1) * 16 := by
              rw [← pow_succ]
              exact hk
            exact (Nat.div_lt_iff_lt_mul (by norm_num)).mpr hmul
          have hfuel : n / 16 < fuel := by
            have hlt : n / 16 < n := Nat.div_lt_self (by omega) (by norm_num)
            omega
          have hrec := ih (k2 + 1) (n / 16) hfuel hdiv (by omega)
          simp [toHexAux, h16, List.length_append]
          omega

/-- Python's `04X` output has at least four characters. -/
theorem pyHex4_length_ge (n : Nat) : 4 ≤ (pyHex4 n).length := by
  unfold pyHex4
  simp [String.length_mk, List.length_append, List.length_replicate]
  omega

/-- Python's `04X` output has exactly four characters whenever the value
fits in four hexadecimal digits. -/
theorem pyHex4_length_eq (n : Nat) (h : n < 65536) : (pyHex4 n).length = 4 := by
  have hle : (toHexAux (n + 1) n).length ≤ 4 :=
    toHexAux_length_le (n + 1) 4 n (Nat.lt_succ_self n) (by norm_num; omega) (by norm_num)
  unfold pyHex4
  simp [String.length_mk, List.length_append, List.length_replicate]
  omega

/-- Numeric value of one uppercase hexadecimal digit (0 on other
characters). -/
def hexDigitVal (c : Char) : Nat :=
  if 48 ≤ c.toNat ∧ c.toNat ≤ 57 then c.toNat - 48
  else if 65 ≤ c.toNat ∧ c.toNat ≤ 70 then c.toNat - 55
  else 0

/-- Numeric value denoted by a string of hexadecimal digits. -/
def hexValue (s : List Char) : Nat :=
  s.foldl (fun acc c => 16 * acc + hexDigitVal c) 0

/-- Digit values are below the base. -/
theorem hexDigitVal_lt (c : Char) : hexDigitVal c < 16 := by
  unfold hexDigitVal
  split_ifs <;> omega

/-- Folding hexadecimal digits is bounded by the base power. -/
theorem hexValue_foldl_lt : ∀ (s : List Char) (acc : Nat),
    s.foldl (fun acc c => 16 * acc + hexDigitVal c) acc < (acc + 1) * 16 ^ s.length := by
  intro s
  induction s with
  | nil => intro acc; simp
  | cons c cs ih =>
    intro acc
    have hd : hexDigitVal c < 16 := hexDigitVal_lt c
    have step := ih (16 * acc + hexDigitVal c)
    have hle : (16 * acc + hexDigitVal c + 1) * 16 ^ cs.length ≤
        ((acc + 1) * 16) * 16 ^ cs.length := by
      apply Nat.mul_le_mul_right
      omega
    calc List.foldl (fun acc c => 16 * acc + hexDigitVal c) acc (c :: cs)
        = List.foldl (fun acc c => 16 * acc + hexDigitVal c) (16 * acc + hexDigitVal c) cs := rfl
      _ < (16 * acc + hexDigitVal c + 1) * 16 ^ cs.length := step
      _ ≤ ((acc + 1) * 16) * 16 ^ cs.length := hle
      _ = (acc + 1) * 16 ^ (c :: cs).length := by
          rw [List.length_cons, pow_succ]
          ring

/-- A list of `k` hexadecimal digits denotes a value below `16 ^ k`. -/
theorem hexValue_lt (s : List Char) : hexValue s < 16 ^ s.length := by
  have h := hexValue_foldl_lt s 0
  simpa [hexValue] using h

/-! ### Claims -/

/-- C2: a STRING-category token whose text starts (case-insensitively)
with one of the two-character exempt prefixes (`hasExemptMarker`, the
embedded `lower().startswith` check) contributes zero violations to the
run, regardless of what non-ASCII characters its text contains. -/
theorem C2_exempt_string (ts1 ts2 : List Token) (t : Token)
    (h1 : t.type = TokenType.STRING)
    (h2 : hasExemptMarker t.string.data = true) :
    checkTokens (ts1 ++ t :: ts2) = checkTokens (ts1 ++ ts2) := by
  rw [checkTokens_append, checkTokens_append]
  have hone : checkOneToken t = [] := by
    unfold checkOneToken checkStringToken
    rw [if_neg (by simp [h1]), if_pos h1, if_pos h2]
  simp [checkTokens, hone]

/-- An exempt STRING token: text `U'é'` (uppercase prefix, non-ASCII
content), exercising the case-insensitive prefix check. -/
def exemptToken : Token :=
  { type := TokenType.STRING, string := "U" ++ squote ++ "é" ++ squote,
    start_line := 1, start_col := 0 }

/-- Witness for C2 at the concrete token `exemptToken`. -/
theorem C2_witness :
    exemptToken.type = TokenType.STRING ∧
    hasExemptMarker exemptToken.string.data = true ∧
    checkTokens ([] ++ exemptToken :: []) = checkTokens ([] ++ []) :=
  ⟨rfl, by decide, C2_exempt_string [] [] exemptToken rfl (by decide)⟩

/-- C7: the checker never fails on an absent token sequence: `None` is
collapsed to the empty list by `__init__` (`file_tokens or []`), and
`run()` on an empty token sequence yields zero violations. -/
theorem C7_none_and_empty {α : Type} (tree : α) (filename : String) :
    run (initChecker tree none filename) = [] ∧
    run (initChecker tree (some []) filename) = [] :=
  ⟨rfl, rfl⟩

/-- C8: a token sequence in which every code point of every token's text
has scalar value at most 127 produces zero violations from `run()`. -/
theorem C8_ascii_clean {α : Type} (checker : AsciiChecker α)
    (h : ∀ t ∈ checker.file_tokens, ∀ c ∈ t.string.data, c.toNat ≤ 127) :
    run checker = [] := by
  have key : ∀ ts : List Token,
      (∀ t ∈ ts, ∀ c ∈ t.string.data, c.toNat ≤ 127) → checkTokens ts = [] := by
    intro ts
    induction ts with
    | nil => intro _; rfl
    | cons t rest ih =>
      intro hts
      have h1 : checkOneToken t = [] := checkOneToken_eq_nil_of_ascii (hts t (by simp))
      have h2 : checkTokens rest = [] := ih (fun u hu => hts u (by simp [hu]))
      simp [checkTokens, h1, h2]
  exact key checker.file_tokens h

/-- A purely ASCII token. -/
def asciiToken : Token :=
  { type := TokenType.other 1, string := "x = 1", start_line := 2, start_col := 0 }

/-- Witness for C8 at a one-token ASCII-clean checker. -/
theorem C8_witness :
    (∀ t ∈ (initChecker () (some [asciiToken]) "test.py").file_tokens,
      ∀ c ∈ t.string.data, c.toNat ≤ 127) ∧
    run (initChecker () (some [asciiToken]) "test.py") = [] :=
  ⟨by decide, C8_ascii_clean (initChecker () (some [asciiToken]) "test.py") (by decide)⟩

/-- C9: violations appear in the same relative order as their source
tokens: the violations of any token sit exactly between those of the
tokens before it and those of the tokens after it. -/
theorem C9_order_preservation (ts1 : List Token) (t : Token) (ts2 : List Token) :
    checkTokens (ts1 ++ t :: ts2) =
      checkTokens ts1 ++ checkOneToken t ++ checkTokens ts2 := by
  rw [checkTokens_append]
  simp [checkTokens, List.append_assoc]

/-- C10: `run()` depends only on the token sequence: two checkers built
from the same tokens but arbitrary (possibly different) syntax trees and
filenames produce identical violation sequences. -/
theorem C10_only_tokens_matter {α β : Type} (tree1 : α) (tree2 : β)
    (toks : Option (List Token)) (fn1 fn2 : String) :
    run (initChecker tree1 toks fn1) = run (initChecker tree2 toks fn2) := rfl

/-- C1 fails on the code: for the single COMMENT token "# café" at
(line 1, col 0), `run()` does not yield the claimed violation
`(1, 6, "ASC003 Non-ASCII character 'é' (U+00E9) found in comment", origin)`:
`é` sits at index 5 (column 5, not 6), and the message produced by
`f"{self.ASC003} ..."` repeats the description of the `ASC003` constant
before the per-character part. -/
theorem C1_counterexample :
    run (initChecker () (some [cafeToken]) "t.py") ≠
      [{ line := 1
         col := 6
         message := "ASC003 Non-ASCII character " ++ squote ++ "é" ++ squote
           ++ " (U+00E9) found in comment"
         origin := CheckerOrigin.asciiChecker }] := by
  decide

/-- C1 amended: the message of a flagged COMMENT token is exactly the
`ASC003` constant (itself the full sentence
"ASC003 Non-ASCII character found in comment") followed by
" Non-ASCII character '<char>' (U+<hex>) found in comment", so the
description appears twice; and the example token "# café" at (1, 0)
yields exactly one violation, at line 1 and column 5 (`é` is at 0-based
index 5), carrying that duplicated message. -/
theorem C1_amended :
    (∀ (t : Token) (i : Nat) (c : Char), t.type = TokenType.COMMENT →
      firstNonAscii t.string.data = some (i, c) →
      checkOneToken t =
        [{ line := t.start_line
           col := t.start_col + i
           message := ASC003 ++ " Non-ASCII character " ++ squote ++ String.singleton c
             ++ squote ++ " (U+" ++ pyHex4 c.toNat ++ ") found in comment"
           origin := CheckerOrigin.asciiChecker }]) ∧
    (∀ (t : Token) (i : Nat) (c : Char), t.type = TokenType.STRING →
      hasExemptMarker t.string.data = false →
      firstNonAscii t.string.data = some (i, c) →
      checkOneToken t =
        [{ line := t.start_line
           col := t.start_col + i
           message := ASC002 ++ " Non-ASCII character " ++ squote ++ String.singleton c
             ++ squote ++ " (U+" ++ pyHex4 c.toNat ++ ") found in string literal"
           origin := CheckerOrigin.asciiChecker }]) ∧
    (∀ (t : Token) (i : Nat) (c : Char), t.type ≠ TokenType.COMMENT →
      t.type ≠ TokenType.STRING → t.type ≠ TokenType.ENCODING →
      firstNonAscii t.string.data = some (i, c) →
      checkOneToken t =
        [{ line := t.start_line
           col := t.start_col + i
           message := ASC001 ++ " Non-ASCII character " ++ squote ++ String.singleton c
             ++ squote ++ " (U+" ++ pyHex4 c.toNat ++ ") found in source code"
           origin := CheckerOrigin.asciiChecker }]) ∧
    run (initChecker () (some [cafeToken]) "t.py") =
      [{ line := 1
         col := 5
         message := "ASC003 Non-ASCII character found in comment Non-ASCII character "
           ++ squote ++ "é" ++ squote ++ " (U+00E9) found in comment"
         origin := CheckerOrigin.asciiChecker }] := by
  refine ⟨?_, ?_, ?_, ?_⟩
  · intro t i c ht h
    unfold checkOneToken
    rw [if_pos ht]
    exact checkComment_of_some h
  · intro t i c ht hm h
    unfold checkOneToken
    rw [if_neg (by simp [ht]), if_pos ht]
    exact checkStringToken_of_some hm h
  · intro t i c h1 h2 h3 h
    unfold checkOneToken
    rw [if_neg h1, if_neg h2]
    exact checkGeneralToken_of_some h2 h1 h3 h
  · decide

/-- A non-exempt STRING token with text `"é"` (plain double-quoted
literal, no prefix). -/
def strToken : Token :=
  { type := TokenType.STRING, string := "\"é\"", start_line := 4, start_col := 2 }

/-- Witness for the amended C1, exercising all three scanning branches at
the concrete tokens "# café" (COMMENT), `strToken` (STRING) and `genToken`
(general). -/
theorem C1_amended_witness :
    checkOneToken cafeToken =
      [{ line := cafeToken.start_line
         col := cafeToken.start_col + 5
         message := ASC003 ++ " Non-ASCII character " ++ squote ++ String.singleton 'é'
           ++ squote ++ " (U+" ++ pyHex4 'é'.toNat ++ ") found in comment"
         origin := CheckerOrigin.asciiChecker }] ∧
    checkOneToken strToken =
      [{ line := strToken.start_line
         col := strToken.start_col + 1
         message := ASC002 ++ " Non-ASCII character " ++ squote ++ String.singleton 'é'
           ++ squote ++ " (U+" ++ pyHex4 'é'.toNat ++ ") found in string literal"
         origin := CheckerOrigin.asciiChecker }] ∧
    checkOneToken genToken =
      [{ line := genToken.start_line
         col := genToken.start_col + 1
         message := ASC001 ++ " Non-ASCII character " ++ squote ++ String.singleton 'é'
           ++ squote ++ " (U+" ++ pyHex4 'é'.toNat ++ ") found in source code"
         origin := CheckerOrigin.asciiChecker }] :=
  ⟨C1_amended.1 cafeToken 5 'é' rfl (by decide),
   C1_amended.2.1 strToken 1 'é' rfl (by decide) (by decide),
   C1_amended.2.2.1 genToken 1 'é' (by decide) (by decide) (by decide) (by decide)⟩

/-- C3: a token that is not skipped by the dispatch (its type is not
ENCODING) nor by the prefix exemption (if it is a STRING, the exempt check
fails) and whose text contains a non-ASCII character produces exactly one
violation, whose column addresses the first (lowest-index) such character;
later non-ASCII characters in the same token produce nothing. -/
theorem C3_single_violation (t : Token) (pre : List Char) (c : Char) (rest : List Char)
    (henc : t.type ≠ TokenType.ENCODING)
    (hexempt : t.type = TokenType.STRING → hasExemptMarker t.string.data = false)
    (hsplit : t.string.data = pre ++ c :: rest)
    (hpre : ∀ a ∈ pre, a.toNat ≤ 127)
    (hc : 127 < c.toNat) :
    ∃ v : Violation, checkOneToken t = [v] ∧
      v.line = t.start_line ∧ v.col = t.start_col + pre.length := by
  have hfa : firstNonAscii t.string.data = some (pre.length, c) := by
    unfold firstNonAscii
    rw [hsplit, firstNonAsciiFrom_append hpre hc 0]
    simp
  by_cases h1 : t.type = TokenType.COMMENT
  · have hdisp : checkOneToken t = checkComment t := by
      unfold checkOneToken
      rw [if_pos h1]
    exact ⟨_, hdisp.trans (checkComment_of_some hfa), rfl, rfl⟩
  · by_cases h2 : t.type = TokenType.STRING
    · have hdisp : checkOneToken t = checkStringToken t := by
        unfold checkOneToken
        rw [if_neg h1, if_pos h2]
      exact ⟨_, hdisp.trans (checkStringToken_of_some (hexempt h2) hfa), rfl, rfl⟩
    · have hdisp : checkOneToken t = checkGeneralToken t := by
        unfold checkOneToken
        rw [if_neg h1, if_neg h2]
      exact ⟨_, hdisp.trans (checkGeneralToken_of_some h2 h1 henc hfa), rfl, rfl⟩

/-- Witness for C3 at the concrete token `genToken`. -/
theorem C3_witness :
    genToken.type ≠ TokenType.ENCODING ∧
    ∃ v : Violation, checkOneToken genToken = [v] ∧
      v.line = genToken.start_line ∧
      v.col = genToken.start_col + (['a'] : List Char).length :=
  ⟨by decide, C3_single_violation genToken ['a'] 'é' [] (by decide) (by decide)
    (by decide) (by decide) (by decide)⟩

/-- C4: dispatch is correct and exhaustive: a COMMENT token containing a
non-ASCII character yields one violation whose message contains "ASC003";
a STRING token without an exempt prefix yields "ASC002"; a token of any
other non-skipped type yields "ASC001"; and an ENCODING token yields zero
violations regardless of its text. -/
theorem C4_dispatch :
    (∀ t : Token, t.type = TokenType.COMMENT →
      (∃ c ∈ t.string.data, 127 < c.toNat) →
      ∃ v, checkOneToken t = [v] ∧ ("ASC003" : String).data <:+: v.message.data) ∧
    (∀ t : Token, t.type = TokenType.STRING →
      hasExemptMarker t.string.data = false →
      (∃ c ∈ t.string.data, 127 < c.toNat) →
      ∃ v, checkOneToken t = [v] ∧ ("ASC002" : String).data <:+: v.message.data) ∧
    (∀ t : Token, t.type ≠ TokenType.COMMENT → t.type ≠ TokenType.STRING →
      t.type ≠ TokenType.ENCODING →
      (∃ c ∈ t.string.data, 127 < c.toNat) →
      ∃ v, checkOneToken t = [v] ∧ ("ASC001" : String).data <:+: v.message.data) ∧
    (∀ t : Token, t.type = TokenType.ENCODING → checkOneToken t = []) := by
  refine ⟨?_, ?_, ?_, ?_⟩
  · intro t ht hex
    obtain ⟨i, c, hfa⟩ := firstNonAsciiFrom_isSome hex 0
    have hdisp : checkOneToken t = checkComment t := by
      unfold checkOneToken
      rw [if_pos ht]
    refine ⟨_, hdisp.trans (checkComment_of_some hfa), ?_⟩
    refine List.IsPrefix.isInfix ?_
    apply prefix_data_append
    apply prefix_data_append
    apply prefix_data_append
    apply prefix_data_append
    apply prefix_data_append
    apply prefix_data_append
    apply prefix_data_append
    decide
  · intro t ht hm hex
    obtain ⟨i, c, hfa⟩ := firstNonAsciiFrom_isSome hex 0
    have hdisp : checkOneToken t = checkStringToken t := by
      unfold checkOneToken
      rw [if_neg (by simp [ht]), if_pos ht]
    refine ⟨_, hdisp.trans (checkStringToken_of_some hm hfa), ?_⟩
    refine List.IsPrefix.isInfix ?_
    apply prefix_data_append
    apply prefix_data_append
    apply prefix_data_append
    apply prefix_data_append
    apply prefix_data_append
    apply prefix_data_append
    apply prefix_data_append
    decide
  · intro t h1 h2 h3 hex
    obtain ⟨i, c, hfa⟩ := firstNonAsciiFrom_isSome hex 0
    have hdisp : checkOneToken t = checkGeneralToken t := by
      unfold checkOneToken
      rw [if_neg h1, if_neg h2]
    refine ⟨_, hdisp.trans (checkGeneralToken_of_some h2 h1 h3 hfa), ?_⟩
    refine List.IsPrefix.isInfix ?_
    apply prefix_data_append
    apply prefix_data_append
    apply prefix_data_append
    apply prefix_data_append
    apply prefix_data_append
    apply prefix_data_append
    apply prefix_data_append
    decide
  · intro t ht
    unfold checkOneToken checkGeneralToken
    rw [if_neg (by simp [ht]), if_neg (by simp [ht]), if_pos (by simp [ht])]

/-- An ENCODING token with non-ASCII text: must always be skipped. -/
def encodingToken : Token :=
  { type := TokenType.ENCODING, string := "utf-é", start_line := 1, start_col := 0 }

/-- Witness for C4 at concrete tokens of all four kinds. -/
theorem C4_witness :
    (∃ v, checkOneToken cafeToken = [v] ∧
      ("ASC003" : String).data <:+: v.message.data) ∧
    checkOneToken encodingToken = [] :=
  ⟨C4_dispatch.1 cafeToken rfl (by decide),
   C4_dispatch.2.2.2 encodingToken rfl⟩

/-- C5 fails on the code at the spec's own example: the COMMENT token
"# commént" starting at line 5, column 4, has `é` at 0-based index 6, so
the violation lands at column 4 + 6 = 10; no violation with column 12 is
produced. -/
theorem C5_counterexample :
    ¬ ∃ v ∈ checkTokens [commentToken], v.line = 5 ∧ v.col = 12 := by
  decide

/-- C5 amended: every emitted violation has `line` equal to the token's
start line and `column` equal to the token's start column plus the 0-based
index of the first non-ASCII character of the text (everything before
that index is ASCII); the example token "# commént" at (5, 4) yields the
violation at line 5, column 10 (`é` is at index 6, not 8). -/
theorem C5_amended :
    (∀ (t : Token) (v : Violation), v ∈ checkOneToken t →
      ∃ pre c rest, t.string.data = pre ++ c :: rest ∧
        (∀ a ∈ pre, a.toNat ≤ 127) ∧ 127 < c.toNat ∧
        v.line = t.start_line ∧ v.col = t.start_col + pre.length) ∧
    checkTokens [commentToken] =
      [{ line := 5
         col := 10
         message := "ASC003 Non-ASCII character found in comment Non-ASCII character "
           ++ squote ++ "é" ++ squote ++ " (U+00E9) found in comment"
         origin := CheckerOrigin.asciiChecker }] := by
  constructor
  · intro t v hv
    obtain ⟨i, c, heq, hline, hcol, _⟩ := mem_checkOneToken hv
    obtain ⟨pre, rest, hs, hi, hpre, hc⟩ := firstNonAsciiFrom_some heq
    refine ⟨pre, c, rest, hs, hpre, hc, hline, ?_⟩
    rw [hcol, hi]
    simp
  · decide

/-- The violation actually produced for `commentToken`. -/
def commentViolation : Violation :=
  { line := 5
    col := 10
    message := "ASC003 Non-ASCII character found in comment Non-ASCII character "
      ++ squote ++ "é" ++ squote ++ " (U+00E9) found in comment"
    origin := CheckerOrigin.asciiChecker }

/-- Witness for the amended C5 at the concrete token "# commént". -/
theorem C5_witness :
    commentViolation ∈ checkOneToken commentToken ∧
    ∃ pre c rest, commentToken.string.data = pre ++ c :: rest ∧
      (∀ a ∈ pre, a.toNat ≤ 127) ∧ 127 < c.toNat ∧
      commentViolation.line = commentToken.start_line ∧
      commentViolation.col = commentToken.start_col + pre.length :=
  ⟨by decide, C5_amended.1 commentToken commentViolation (by decide)⟩

/-- C6 fails on the code for codepoints above U+FFFF: the general token
whose text is the single character U+1F600 is flagged with message
fragment "U+1F600" — five hexadecimal digits — and no four-digit
hexadecimal string can denote its codepoint 128512 at all, so the message
embeds no 4-digit `U+XXXX` form of the offending codepoint. -/
theorem C6_counterexample :
    ∃ v, checkTokens [emojiToken] = [v] ∧
      ("U+1F600" : String).data <:+: v.message.data ∧
      (pyHex4 (Char.ofNat 0x1F600).toNat).length = 5 ∧
      ¬ ∃ s : List Char, s.length = 4 ∧ hexValue s = (Char.ofNat 0x1F600).toNat ∧
        ("U+" : String).data ++ s <:+: v.message.data := by
  refine ⟨{ line := 1
            col := 0
            message := "ASC001 Non-ASCII character found in source code Non-ASCII character "
              ++ squote ++ String.singleton (Char.ofNat 0x1F600) ++ squote
              ++ " (U+1F600) found in source code"
            origin := CheckerOrigin.asciiChecker }, by decide, by decide, by decide, ?_⟩
  rintro ⟨s, hlen, hval, _⟩
  have hbound := hexValue_lt s
  rw [hlen] at hbound
  have hc : (Char.ofNat 0x1F600).toNat = 128512 := by decide
  rw [hc] at hval
  norm_num at hbound
  omega

/-- C6 amended: every emitted violation embeds the offending character's
codepoint as uppercase hexadecimal zero-padded to a minimum of four
digits, in the form `U+<hex>` — exactly four digits whenever the
codepoint is at most U+FFFF; in particular, for `é` (U+00E9) the message
contains the exact substring "U+00E9". -/
theorem C6_amended :
    (∀ (t : Token) (v : Violation), v ∈ checkOneToken t →
      ∃ i c, firstNonAscii t.string.data = some (i, c) ∧
        ("U+" ++ pyHex4 c.toNat).data <:+: v.message.data ∧
        4 ≤ (pyHex4 c.toNat).length ∧
        (c.toNat < 65536 → (pyHex4 c.toNat).length = 4)) ∧
    (∃ v, checkTokens [cafeToken] = [v] ∧
      ("U+00E9" : String).data <:+: v.message.data) := by
  constructor
  · intro t v hv
    obtain ⟨i, c, heq, _, _, code, tail, hmsg⟩ := mem_checkOneToken hv
    refine ⟨i, c, heq, ?_, pyHex4_length_ge c.toNat,
      fun h => pyHex4_length_eq c.toNat h⟩
    rw [hmsg]
    exact uhex_infix code c tail
  · exact ⟨{ line := 1
             col := 5
             message := "ASC003 Non-ASCII character found in comment Non-ASCII character "
               ++ squote ++ "é" ++ squote ++ " (U+00E9) found in comment"
             origin := CheckerOrigin.asciiChecker }, by decide, by decide⟩

/-- The violation actually produced for `cafeToken`. -/
def cafeViolation : Violation :=
  { line := 1
    col := 5
    message := "ASC003 Non-ASCII character found in comment Non-ASCII character "
      ++ squote ++ "é" ++ squote ++ " (U+00E9) found in comment"
    origin := CheckerOrigin.asciiChecker }

/-- Witness for the amended C6 at the concrete token "# café" and its
violation. -/
theorem C6_witness :
    ∃ i c, firstNonAscii cafeToken.string.data = some (i, c) ∧
      ("U+" ++ pyHex4 c.toNat).data <:+: cafeViolation.message.data ∧
      4 ≤ (pyHex4 c.toNat).length ∧
      (c.toNat < 65536 → (pyHex4 c.toNat).length = 4) := by
  exact C6_amended.1 cafeToken cafeViolation (by decide)

end AsciiValidator
